import Mathlib

/-!
Verification of the `pyrun-jupyter` command-line interface
(`src/pyrun_jupyter/cli.py`).

The CLI module is pure glue over the runner core: it parses a parameter
string (`parse_params` / `convert_value`), validates the target file, calls
the runner, prints the result and returns an exit code.  We embed that
logic shallowly:

* Python strings are Lean `String`s; most work happens on `List Char`
  so that every definition reduces in the kernel (decidable witnesses).
* The builtins `int(...)` and `float(...)` applied to strings are modelled
  by `pyIntParse` / `pyFloatParse`, following CPython's documented grammar
  for string arguments restricted to ASCII (optional surrounding
  whitespace, optional sign, digit runs with single underscores between
  digits, and for floats an optional fraction, exponent, and the special
  spellings inf/infinity/nan).  Unicode digits and non-ASCII whitespace
  are outside the modelled fragment; the IEEE-754 rounding of a parsed
  float literal is abstracted by recording the exact decimal value as a
  rational (the CLI never computes with the number).
* `json.loads` is an external library call; it is passed in as an
  explicit function argument (an `Except` value standing for a raised
  `json.JSONDecodeError` with its message), exactly as the filesystem and
  the Jupyter transport are passed in as an environment.
* Printing is modelled as a trace of events (`OutEvent.out` to stdout,
  `OutEvent.err` to stderr, one event per `print` call; newline handling
  of `print` is abstracted, the printed text is recorded verbatim).
-/

/-- ASCII approximation of Python `str.strip()` whitespace. -/
def pyIsSpace (c : Char) : Bool :=
  c == ' ' || c == Char.ofNat 9 || c == Char.ofNat 10 || c == Char.ofNat 13 ||
  c == Char.ofNat 11 || c == Char.ofNat 12

/-- Python `str.strip()` on a list of characters. -/
def stripL (l : List Char) : List Char :=
  ((l.dropWhile pyIsSpace).reverse.dropWhile pyIsSpace).reverse

/-- Python `str.strip()`. -/
def pyStrip (s : String) : String := String.mk (stripL s.toList)

/-- ASCII lowering of one character (Python `str.lower()` restricted to ASCII). -/
def asciiLower (c : Char) : Char :=
  if 65 ≤ c.toNat ∧ c.toNat ≤ 90 then Char.ofNat (c.toNat + 32) else c

/-- Python `str.lower()` (ASCII fragment). -/
def pyLower (s : String) : String := String.mk (s.toList.map asciiLower)

/-- The double-quote character. -/
def dquote : Char := Char.ofNat 34

/-- The single-quote character. -/
def squote : Char := Char.ofNat 39

/-- The opening-brace character. -/
def lbrace : Char := Char.ofNat 123

/-- The closing-brace character. -/
def rbrace : Char := Char.ofNat 125

/-- Numeric value of a decimal digit character. -/
def digitVal (c : Char) : Nat := c.toNat - 48

/-- Greedily consume a CPython digit run (decimal digits with single
underscores allowed only between digits).  The flag records whether the
previous character was an underscore (or, initially, that a digit is
mandatory); returns the digits consumed (underscores removed) and the
remaining input, or `none` when the underscore discipline is violated. -/
def takeDigAux : Bool → List Char → Option (List Char × List Char)
  | afterUnd, [] => if afterUnd then Option.none else some ([], [])
  | afterUnd, c :: rest =>
    if c.isDigit then
      (takeDigAux false rest).map (fun p => (c :: p.1, p.2))
    else if c == '_' && !afterUnd then
      takeDigAux true rest
    else if afterUnd then Option.none
    else some ([], c :: rest)

/-- Consume a non-empty digit run from the front of the input. -/
def takeDigitRun (l : List Char) : Option (List Char × List Char) :=
  takeDigAux true l

/-- Decimal value of a digit list. -/
def digitsToNat (l : List Char) : Nat :=
  l.foldl (fun a c => a * 10 + digitVal c) 0

/-- Optional leading sign, as in CPython's number grammar. -/
def parseSign : List Char → Int × List Char
  | '+' :: r => (1, r)
  | '-' :: r => (-1, r)
  | l => (1, l)

/-- Model of the builtin `int(s)` for a string argument (ASCII fragment):
optional whitespace, optional sign, then a digit run covering the entire
remainder; `none` models a raised `ValueError`. -/
def pyIntParse (s : String) : Option Int :=
  let sr := parseSign (stripL s.toList)
  match takeDigitRun sr.2 with
  | some (ds, rest) => if rest = [] then some (sr.1 * (digitsToNat ds : Int)) else Option.none
  | Option.none => Option.none

/-- Value of a parsed Python float literal.  The finite case records the
exact decimal value as a rational; IEEE-754 rounding (and overflow to
infinity) is abstracted since the CLI never computes with the number. -/
inductive PyFloat where
  | finite (q : ℚ)
  | inf
  | negInf
  | nan
deriving DecidableEq

/-- Mantissa of a float literal: integer digits and fraction digits. -/
def mantissaQ (ip fp : List Char) : ℚ :=
  (digitsToNat ip : ℚ) + (digitsToNat fp : ℚ) / ((10 : ℚ) ^ fp.length)

/-- Ten to an integer power, as a rational. -/
def qPow10 (e : Int) : ℚ :=
  if 0 ≤ e then (10 : ℚ) ^ e.toNat else 1 / (10 : ℚ) ^ (-e).toNat

/-- Parse the mantissa part `digits [. digits] | . digits` of a float
literal, returning integer digits, fraction digits and the rest. -/
def takeMantissa (l : List Char) : Option (List Char × List Char × List Char) :=
  match takeDigitRun l with
  | some (ip, r) =>
    match r with
    | '.' :: r2 =>
      match takeDigitRun r2 with
      | some (fp, r3) => some (ip, fp, r3)
      | Option.none => some (ip, [], r2)
    | _ => some (ip, [], r)
  | Option.none =>
    match l with
    | '.' :: r2 =>
      match takeDigitRun r2 with
      | some (fp, r3) => some ([], fp, r3)
      | Option.none => Option.none
    | _ => Option.none

/-- Parse the optional exponent part `([eE] [sign] digits)?`.  When an
`e`/`E` is present an exponent must follow, otherwise the whole literal is
invalid. -/
def takeExp : List Char → Option (Int × List Char)
  | [] => some (0, [])
  | c :: rest =>
    if c == 'e' || c == 'E' then
      let sr := parseSign rest
      match takeDigitRun sr.2 with
      | some (ds, r2) => some (sr.1 * (digitsToNat ds : Int), r2)
      | Option.none => Option.none
    else some (0, c :: rest)

/-- Model of the builtin `float(s)` for a string argument (ASCII fragment):
optional whitespace, optional sign, then `inf`/`infinity`/`nan`
(case-insensitive) or a decimal literal with optional fraction and
exponent; `none` models a raised `ValueError`. -/
def pyFloatParse (s : String) : Option PyFloat :=
  let sr := parseSign (stripL s.toList)
  let rs := pyLower (String.mk sr.2)
  if rs = "inf" ∨ rs = "infinity" then
    some (if sr.1 = 1 then PyFloat.inf else PyFloat.negInf)
  else if rs = "nan" then
    some PyFloat.nan
  else
    match takeMantissa sr.2 with
    | some (ip, fp, r2) =>
      match takeExp r2 with
      | some (e, r3) =>
        if r3 = [] then some (PyFloat.finite ((sr.1 : ℚ) * mantissaQ ip fp * qPow10 e))
        else Option.none
      | Option.none => Option.none
    | Option.none => Option.none

/-- Values produced by the CLI's parameter coercion (`cli.py`,
`convert_value`): Python `None`, `bool`, `int`, `float` or `str`.  Nested
JSON values (lists/objects) are outside the modelled fragment; none of the
verified properties exercises them. -/
inductive PyValue where
  | none
  | bool (b : Bool)
  | int (z : Int)
  | float (f : PyFloat)
  | str (s : String)
deriving DecidableEq

/-- Quote stripping at the end of `convert_value` (`cli.py` lines 96-101):
`value[1:-1]` when the string both starts and ends with the same quote
character. -/
def pyStripQuotes (value : String) : String :=
  if (value.toList.head? = some dquote ∧ value.toList.getLast? = some dquote) ∨
     (value.toList.head? = some squote ∧ value.toList.getLast? = some squote) then
    String.mk ((value.toList.drop 1).dropLast)
  else value

/-- `convert_value` (`cli.py` lines 65-101): best-effort typed coercion of
one parameter value.  The `try/except ValueError` blocks around `int(...)`
and `float(...)` are the `Option` matches. -/
def convert_value (value : String) : PyValue :=
  if pyLower value = "none" ∨ pyLower value = "null" then PyValue.none
  else if pyLower value = "true" then PyValue.bool true
  else if pyLower value = "false" then PyValue.bool false
  else
    match pyIntParse value with
    | some z => PyValue.int z
    | Option.none =>
      match pyFloatParse value with
      | some f => PyValue.float f
      | Option.none => PyValue.str (pyStripQuotes value)

/-- A Python `dict` with `str` keys, as an insertion-ordered association
list (CPython dicts preserve insertion order). -/
abbrev PyDict := List (String × PyValue)

/-- Assignment `d[k] = v` on a Python dict: an existing key keeps its
position and gets the new value, a new key is appended. -/
def dictInsert (d : PyDict) (k : String) (v : PyValue) : PyDict :=
  if (d.lookup k).isSome then d.map (fun p => if p.1 = k then (k, v) else p)
  else d ++ [(k, v)]

/-- Exceptions relevant to `parse_params`: `ValueError` and
`json.JSONDecodeError`, each carrying its message. -/
inductive PyErr where
  | valueError (m : String)
  | jsonDecodeError (m : String)
deriving DecidableEq

deriving instance DecidableEq for Except

/-- Message of an exception (`str(e)`). -/
def PyErr.msg : PyErr → String
  | .valueError m => m
  | .jsonDecodeError m => m

/-- Python `s.split(sep)` for a one-character separator, on character
lists; like Python, the result always has at least one (possibly empty)
piece and empty pieces between adjacent separators are kept. -/
def splitOnChar (sep : Char) : List Char → List (List Char)
  | [] => [[]]
  | c :: rest =>
    let r := splitOnChar sep rest
    if c == sep then [] :: r
    else
      match r with
      | [] => [[c]]
      | h :: t => (c :: h) :: t

/-- Python `pair.split("=", 1)`: the part before the first `=` and the
part after it (the caller has checked that `=` occurs). -/
def splitFirstEq (p : List Char) : List Char × List Char :=
  (p.takeWhile (fun c => c ≠ '='), (p.dropWhile (fun c => c ≠ '=')).drop 1)

/-- The `key=value` loop of `parse_params` (`cli.py` lines 47-62): strip
each piece, skip empty pieces, require an `=`, strip key and value, coerce
the value, assign into the dict; the first offending piece raises
`ValueError`. -/
def processPairs : List (List Char) → PyDict → Except PyErr PyDict
  | [], params => Except.ok params
  | pair :: rest, params =>
    if stripL pair = [] then processPairs rest params
    else if (stripL pair).contains '=' then
      processPairs rest
        (dictInsert params (String.mk (stripL (splitFirstEq (stripL pair)).1))
          (convert_value (String.mk (stripL (splitFirstEq (stripL pair)).2))))
    else
      Except.error (PyErr.valueError
        ("Invalid parameter format: " ++ String.mk (stripL pair) ++
          ". Expected key=value or JSON."))

/-- `parse_params` (`cli.py` lines 22-62).  `jsonLoads` is the external
`json.loads` library call, returning either the decoded object or the
message of the `json.JSONDecodeError` it raises; the surrounding
`try/except` is the match on its result.  A falsy argument (`None` or the
empty string) yields the empty dict. -/
def parse_params (jsonLoads : String → Except String PyDict) :
    Option String → Except PyErr PyDict
  | Option.none => Except.ok []
  | some ps0 =>
    if ps0 = "" then Except.ok []
    else
      if (stripL ps0.toList).head? = some lbrace ∧
         (stripL ps0.toList).getLast? = some rbrace then
        match jsonLoads (String.mk (stripL ps0.toList)) with
        | Except.ok d => Except.ok d
        | Except.error e => Except.error (PyErr.valueError ("Invalid JSON format: " ++ e))
      else
        processPairs (splitOnChar ',' (stripL ps0.toList)) []

/-- Follows the words of claim C3: the comma pieces of the stripped
parameter string, each stripped, with empty pieces skipped. -/
def kvPieces (s : String) : List (List Char) :=
  ((splitOnChar ',' (stripL s.toList)).map stripL).filter (fun p => !p.isEmpty)

/-- Follows the words of claim C3: the stripped key of one piece (the part
before the first `=`). -/
def kvKey (p : List Char) : String := String.mk (stripL (splitFirstEq p).1)

/-- Follows the words of claim C3: the stripped value of one piece (the
part after the first `=`). -/
def kvVal (p : List Char) : String := String.mk (stripL (splitFirstEq p).2)

/-- Follows the words of claim C3, independently of the implementation's
sequential loop: if some non-empty piece lacks an `=`, a `ValueError`
naming the first such piece; otherwise the dict built by assigning each
piece's coerced value to its key in order. -/
def parseParamsKVSpec (s : String) : Except PyErr PyDict :=
  match (kvPieces s).find? (fun p => !p.contains '=') with
  | some p =>
    Except.error (PyErr.valueError
      ("Invalid parameter format: " ++ String.mk p ++ ". Expected key=value or JSON."))
  | Option.none =>
    Except.ok ((kvPieces s).foldl
      (fun acc p => dictInsert acc (kvKey p) (convert_value (kvVal p))) [])

/-- The `name` of `PurePosixPath(p)` as a character list: the last path
component, with empty and `.` components dropped (pathlib normalizes them
away). -/
def pathName (p : String) : List Char :=
  (((splitOnChar '/' p.toList).filter
    (fun s => !(s == []) && !(s == ['.']))).getLast?).getD []

/-- Helper for `pyRFind`: index of the last occurrence of `c`, offset by
the index of the head of the remaining list. -/
def pyRFindAux (c : Char) : List Char → Nat → Option Nat
  | [], _ => Option.none
  | d :: rest, i =>
    match pyRFindAux c rest (i + 1) with
    | some j => some j
    | Option.none => if d == c then some i else Option.none

/-- Python `str.rfind`: the index of the last occurrence of `c`, if any. -/
def pyRFind (l : List Char) (c : Char) : Option Nat :=
  pyRFindAux c l 0

/-- `PurePath.suffix`: the part of the name from its last dot, when that
dot is neither the first nor the last character of the name; otherwise the
empty string (CPython `pathlib`). -/
def pathSuffix (p : String) : String :=
  match pyRFind (pathName p) (Char.ofNat 46) with
  | some i =>
    if 0 < i ∧ i < (pathName p).length - 1 then
      String.mk ((pathName p).drop i)
    else ""
  | Option.none => ""

/-- `ExecutionResult` as consumed by the CLI (`runner.run` / `run_file`
return value): accumulated stdout/stderr, the remote-exception flag, and
the remote exception's rendering and traceback lines. -/
structure ExecutionResult where
  stdout : String
  stderr : String
  has_error : Bool
  error : String
  error_traceback : List String
deriving DecidableEq

/-- Outcome of the `with JupyterRunner(...)` block around `run`/`run_file`:
a returned `ExecutionResult`, a raised `PyrunJupyterError`, or any other
raised exception (each with its message). -/
inductive RunnerOutcome where
  | ok (r : ExecutionResult)
  | pyrunError (m : String)
  | otherError (m : String)
deriving DecidableEq

/-- One `print` call of the CLI: to stdout or to stderr. -/
inductive OutEvent where
  | out (s : String)
  | err (s : String)
deriving DecidableEq

/-- Result printing shared by `handle_run` and `handle_run_file`
(`cli.py` lines 253-267 and 297-311): print non-empty stdout, then
non-empty stderr, then — when the result carries a remote exception — the
error line and every traceback line to stderr with exit code 1, else exit
code 0. -/
def printResult (r : ExecutionResult) : Nat × List OutEvent :=
  if r.has_error then
    (1, (if r.stdout = "" then [] else [OutEvent.out r.stdout]) ++
        (if r.stderr = "" then [] else [OutEvent.err r.stderr]) ++
        (OutEvent.err ("\nError: " ++ r.error) :: r.error_traceback.map OutEvent.err))
  else
    (0, (if r.stdout = "" then [] else [OutEvent.out r.stdout]) ++
        (if r.stderr = "" then [] else [OutEvent.err r.stderr]))

/-- The `try ... except PyrunJupyterError ... except Exception` wrapper
shared by both handlers (`cli.py` lines 235-274 and 286-318). -/
def runBlock : RunnerOutcome → Nat × List OutEvent
  | RunnerOutcome.ok r => printResult r
  | RunnerOutcome.pyrunError m => (1, [OutEvent.err ("Error: " ++ m)])
  | RunnerOutcome.otherError m => (1, [OutEvent.err ("Unexpected error: " ++ m)])

/-- Parsed command-line arguments of the `run-file` subcommand.  The
timeout is omitted: it is forwarded unchanged to the runner, which the
environment already closes over. -/
structure RunFileArgs where
  filepath : String
  url : String
  token : Option String
  kernel : String
  params : Option String

/-- External world of `handle_run_file`: whether `Path(filepath).exists()`,
and the outcome of constructing the runner and calling
`runner.run_file(filepath, params, timeout)` as a function of the params
argument that the CLI passes (url/token/kernel/timeout are closed over). -/
structure RunFileEnv where
  fileExists : Bool
  runFile : Option PyDict → RunnerOutcome

/-- `handle_run_file` (`cli.py` lines 216-274): existence check, `.py`
extension check, parameter parsing, then the runner call with
`params if params else None`, printing the outcome. -/
def handle_run_file (env : RunFileEnv) (args : RunFileArgs)
    (jsonLoads : String → Except String PyDict) : Nat × List OutEvent :=
  if ¬ env.fileExists then
    (1, [OutEvent.err ("Error: File not found: " ++ args.filepath)])
  else if ¬ pathSuffix args.filepath = ".py" then
    (1, [OutEvent.err ("Error: Expected .py file, got: " ++ pathSuffix args.filepath)])
  else
    match parse_params jsonLoads args.params with
    | Except.error e =>
      (1, [OutEvent.err ("Error: Invalid params format: " ++ e.msg)])
    | Except.ok params =>
      runBlock (env.runFile (if params = [] then Option.none else some params))

/-- External world of `handle_run`: the outcome of constructing the runner
and calling `runner.run(code, timeout)` (code/url/token/kernel/timeout are
closed over). -/
structure RunEnv where
  run : RunnerOutcome

/-- `handle_run` (`cli.py` lines 277-318). -/
def handle_run (env : RunEnv) : Nat × List OutEvent :=
  runBlock env.run

/-- One argparse argument as declared in `create_parser`: its name,
whether it is positional, whether it is required, and its declared
default (rendered as a string; `none` covers both an explicit
`default=None` and a positional without a default). -/
structure ArgSpec where
  name : String
  positional : Bool
  required : Bool
  default : Option String
deriving DecidableEq

/-- Arguments of the `run-file` subcommand (`cli.py` lines 135-175). -/
def runFileArgSpecs : List ArgSpec :=
  [⟨"filepath", true, true, Option.none⟩,
   ⟨"--url", false, true, Option.none⟩,
   ⟨"--token", false, false, Option.none⟩,
   ⟨"--kernel", false, false, some "python3"⟩,
   ⟨"--params", false, false, Option.none⟩,
   ⟨"--timeout", false, false, some "60.0"⟩]

/-- Arguments of the `run` subcommand (`cli.py` lines 178-211). -/
def runArgSpecs : List ArgSpec :=
  [⟨"code", true, true, Option.none⟩,
   ⟨"--url", false, true, Option.none⟩,
   ⟨"--token", false, false, Option.none⟩,
   ⟨"--kernel", false, false, some "python3"⟩,
   ⟨"--timeout", false, false, some "60.0"⟩]

/-- Claim C9: for every existing file whose `Path.suffix` is not `.py`,
`handle_run_file` prints exactly one error message to stderr and returns
exit code 1; the result does not depend on the params string, the JSON
decoder or the runner, so no parameter parsing, runner creation or
transport work is observable. -/
theorem claim_C9_py_only (env : RunFileEnv) (args : RunFileArgs)
    (j : String → Except String PyDict)
    (hex : env.fileExists = true) (hsuf : pathSuffix args.filepath ≠ ".py") :
    handle_run_file env args j =
      (1, [OutEvent.err ("Error: Expected .py file, got: " ++ pathSuffix args.filepath)]) := by
  unfold handle_run_file
  simp [hex, hsuf]

/-- Witness for claim C9 at a concrete input. -/
theorem claim_C9_py_only_witness :
    handle_run_file ⟨true, fun _ => RunnerOutcome.ok ⟨"", "", false, "", []⟩⟩
      ⟨"notes.txt", "http://localhost:8888", Option.none, "python3", some "a=1"⟩
      (fun _ => Except.error "ignored") =
      (1, [OutEvent.err ("Error: Expected .py file, got: " ++ pathSuffix "notes.txt")]) :=
  claim_C9_py_only _ _ _ rfl (by decide)

/-- Claim C6 fails on the code: the `run` subcommand does not declare a
`--params` option (`cli.py` lines 178-211); only `run-file` does. -/
theorem claim_C6_cex :
    ((runArgSpecs.map ArgSpec.name).contains "--params") = false := by decide

/-- Claim C6 as amended: both subcommands expose the server URL, auth
token, kernel name and timeout options; the parameter mapping (`--params`)
is exposed only on `run-file`, and the `run` subcommand has no parameter
option. -/
theorem claim_C6_surface :
    (["--url", "--token", "--kernel", "--timeout"].all
      (fun n => (runFileArgSpecs.map ArgSpec.name).contains n)) = true ∧
    (["--url", "--token", "--kernel", "--timeout"].all
      (fun n => (runArgSpecs.map ArgSpec.name).contains n)) = true ∧
    ((runFileArgSpecs.map ArgSpec.name).contains "--params") = true ∧
    ((runArgSpecs.map ArgSpec.name).contains "--params") = false := by decide

/-- Claim C1: `handle_run_file` returns only exit codes 0 and 1, and it
returns 0 exactly when execution succeeds: the file exists, passes the
`.py` check, the params string parses, the runner returns an
`ExecutionResult` (no transport/lifecycle exception), and that result
carries no remote exception. -/
theorem claim_C1_exit_codes (env : RunFileEnv) (args : RunFileArgs)
    (j : String → Except String PyDict) :
    ((handle_run_file env args j).1 = 0 ∨ (handle_run_file env args j).1 = 1) ∧
    ((handle_run_file env args j).1 = 0 ↔
      env.fileExists = true ∧ pathSuffix args.filepath = ".py" ∧
      ∃ p, parse_params j args.params = Except.ok p ∧
        ∃ r, env.runFile (if p = [] then Option.none else some p) = RunnerOutcome.ok r ∧
          r.has_error = false) := by
  unfold handle_run_file
  by_cases hf : env.fileExists
  · by_cases hs : pathSuffix args.filepath = ".py"
    · rcases hp : parse_params j args.params with e | p
      · simp [hf, hs, hp]
      · rcases hr : env.runFile (if p = [] then Option.none else some p) with r | m | m
        · by_cases he : r.has_error
          · simp [hf, hs, hp, hr, he, runBlock, printResult]
          · simp [hf, hs, hp, hr, he, runBlock, printResult]
        · simp [hf, hs, hp, hr, runBlock]
        · simp [hf, hs, hp, hr, runBlock]
    · simp [hf, hs]
  · simp [hf]

/-- Claim C5: whenever the runner returns an `ExecutionResult` with
`has_error` set, both `handle_run` and `handle_run_file` surface the
remote exception as data: after printing any accumulated stdout/stderr of
the result, they print the error line and every traceback line to stderr
and return exit code 1, raising nothing. -/
theorem claim_C5_remote_error (r : ExecutionResult) (he : r.has_error = true) :
    (∀ env : RunEnv, env.run = RunnerOutcome.ok r →
      handle_run env =
        (1, (if r.stdout = "" then [] else [OutEvent.out r.stdout]) ++
            (if r.stderr = "" then [] else [OutEvent.err r.stderr]) ++
            (OutEvent.err ("\nError: " ++ r.error) :: r.error_traceback.map OutEvent.err))) ∧
    (∀ (env : RunFileEnv) (args : RunFileArgs) (j : String → Except String PyDict)
        (p : PyDict),
      env.fileExists = true → pathSuffix args.filepath = ".py" →
      parse_params j args.params = Except.ok p →
      env.runFile (if p = [] then Option.none else some p) = RunnerOutcome.ok r →
      handle_run_file env args j =
        (1, (if r.stdout = "" then [] else [OutEvent.out r.stdout]) ++
            (if r.stderr = "" then [] else [OutEvent.err r.stderr]) ++
            (OutEvent.err ("\nError: " ++ r.error) :: r.error_traceback.map OutEvent.err))) := by
  constructor
  · intro env h
    unfold handle_run
    rw [h]
    simp [runBlock, printResult, he]
  · intro env args j p hf hs hp hr
    unfold handle_run_file
    simp [hf, hs, hp, hr, runBlock, printResult, he]

/-- Witness for claim C5 at a concrete input. -/
theorem claim_C5_remote_error_witness :
    handle_run ⟨RunnerOutcome.ok ⟨"out", "", true, "NameError: x", ["tb1", "tb2"]⟩⟩ =
      (1, [OutEvent.out "out", OutEvent.err ("\nError: " ++ "NameError: x"),
           OutEvent.err "tb1", OutEvent.err "tb2"]) := by
  have h := (claim_C5_remote_error ⟨"out", "", true, "NameError: x", ["tb1", "tb2"]⟩ rfl).1
    ⟨RunnerOutcome.ok ⟨"out", "", true, "NameError: x", ["tb1", "tb2"]⟩⟩ rfl
  exact h

/-- Claim C7: an absent `--params` (or one that parses to the empty
mapping) makes `parse_params` return the empty dict and makes
`handle_run_file` call the runner with `params = None`; a non-empty
parsed mapping is passed through as-is. -/
theorem claim_C7_empty_params :
    (∀ j, parse_params j Option.none = Except.ok []) ∧
    (∀ j, parse_params j (some "") = Except.ok []) ∧
    (∀ (env : RunFileEnv) (args : RunFileArgs) (j : String → Except String PyDict),
      env.fileExists = true → pathSuffix args.filepath = ".py" →
      parse_params j args.params = Except.ok [] →
      handle_run_file env args j = runBlock (env.runFile Option.none)) ∧
    (∀ (env : RunFileEnv) (args : RunFileArgs) (j : String → Except String PyDict)
        (p : PyDict),
      env.fileExists = true → pathSuffix args.filepath = ".py" →
      parse_params j args.params = Except.ok p → p ≠ [] →
      handle_run_file env args j = runBlock (env.runFile (some p))) := by
  refine ⟨fun j => rfl, fun j => rfl, ?_, ?_⟩
  · intro env args j hf hs hp
    unfold handle_run_file
    simp [hf, hs, hp]
  · intro env args j p hf hs hp hne
    unfold handle_run_file
    simp [hf, hs, hp, hne]

/-- Witness for claim C7 at a concrete input: a params string of only
whitespace and commas parses to the empty dict and the runner is invoked
with `None`. -/
theorem claim_C7_empty_params_witness :
    handle_run_file
      ⟨true, fun p : Option PyDict => if p = Option.none then RunnerOutcome.ok ⟨"ok", "", false, "", []⟩
        else RunnerOutcome.otherError "unexpected params"⟩
      ⟨"t.py", "http://localhost:8888", Option.none, "python3", some " , "⟩
      (fun _ => Except.error "ignored") =
      runBlock ((fun p : Option PyDict => if p = Option.none then RunnerOutcome.ok ⟨"ok", "", false, "", []⟩
        else RunnerOutcome.otherError "unexpected params") Option.none) :=
  claim_C7_empty_params.2.2.1 _ _ _ rfl (by decide) (by decide)

/-- Claim C2 fails on the code at a quoted non-coercible value: the
fallback is not the string itself — `convert_value` strips a matching
outer quote pair. -/
theorem claim_C2_cex :
    convert_value "\"abc\"" = PyValue.str "abc" ∧
    convert_value "\"abc\"" ≠ PyValue.str "\"abc\"" := by decide

/-- Claim C2 as amended: `convert_value` coerces in the fixed priority
order null, bool, int, float, string — `None` for a lowercased
`none`/`null`, booleans for `true`/`false`, an integer when `int(...)`
succeeds, otherwise a float when `float(...)` succeeds, and otherwise the
string itself with one matching outer quote pair stripped when present. -/
theorem claim_C2_order (s : String) :
    ((pyLower s = "none" ∨ pyLower s = "null") → convert_value s = PyValue.none) ∧
    (pyLower s = "true" → convert_value s = PyValue.bool true) ∧
    (pyLower s = "false" → convert_value s = PyValue.bool false) ∧
    (∀ z : Int,
      ¬(pyLower s = "none" ∨ pyLower s = "null" ∨ pyLower s = "true" ∨ pyLower s = "false") →
      pyIntParse s = some z → convert_value s = PyValue.int z) ∧
    (∀ f : PyFloat,
      ¬(pyLower s = "none" ∨ pyLower s = "null" ∨ pyLower s = "true" ∨ pyLower s = "false") →
      pyIntParse s = Option.none → pyFloatParse s = some f →
      convert_value s = PyValue.float f) ∧
    (¬(pyLower s = "none" ∨ pyLower s = "null" ∨ pyLower s = "true" ∨ pyLower s = "false") →
      pyIntParse s = Option.none → pyFloatParse s = Option.none →
      convert_value s = PyValue.str (pyStripQuotes s)) := by
  refine ⟨?_, ?_, ?_, ?_, ?_, ?_⟩
  · intro h
    unfold convert_value
    rw [if_pos h]
  · intro h
    unfold convert_value
    simp only [h]
    simp
  · intro h
    unfold convert_value
    simp only [h]
    simp
  · intro z h hi
    push_neg at h
    unfold convert_value
    simp [h.1, h.2.1, h.2.2.1, h.2.2.2, hi]
  · intro f h hi hf
    push_neg at h
    unfold convert_value
    simp [h.1, h.2.1, h.2.2.1, h.2.2.2, hi, hf]
  · intro h hi hf
    push_neg at h
    unfold convert_value
    simp [h.1, h.2.1, h.2.2.1, h.2.2.2, hi, hf]

/-- Witness for the amended claim C2 at a concrete input. -/
theorem claim_C2_order_witness : convert_value "42" = PyValue.int 42 :=
  (claim_C2_order "42").2.2.2.1 42 (by decide) (by decide)

/-- Claim C8: `convert_value` is total — every input yields one of the
five value shapes, and when the keyword checks and both numeric parses
fail the unconditional string fallback is reached. -/
theorem claim_C8_total (s : String) :
    (convert_value s = PyValue.none ∨ (∃ b, convert_value s = PyValue.bool b) ∨
     (∃ z, convert_value s = PyValue.int z) ∨ (∃ f, convert_value s = PyValue.float f) ∨
     (∃ t, convert_value s = PyValue.str t)) ∧
    (¬(pyLower s = "none" ∨ pyLower s = "null" ∨ pyLower s = "true" ∨ pyLower s = "false") →
      pyIntParse s = Option.none → pyFloatParse s = Option.none →
      ∃ t, convert_value s = PyValue.str t) := by
  constructor
  · rcases h : convert_value s with _ | b | z | f | t
    · exact Or.inl rfl
    · exact Or.inr (Or.inl ⟨b, rfl⟩)
    · exact Or.inr (Or.inr (Or.inl ⟨z, rfl⟩))
    · exact Or.inr (Or.inr (Or.inr (Or.inl ⟨f, rfl⟩)))
    · exact Or.inr (Or.inr (Or.inr (Or.inr ⟨t, rfl⟩)))
  · intro h hi hf
    push_neg at h
    refine ⟨pyStripQuotes s, ?_⟩
    unfold convert_value
    simp [h.1, h.2.1, h.2.2.1, h.2.2.2, hi, hf]

/-- Witness for claim C8 at a concrete input. -/
theorem claim_C8_total_witness : ∃ t, convert_value "hello world" = PyValue.str t :=
  (claim_C8_total "hello world").2 (by decide) (by decide) (by decide)

/-- Claim C10 fails on the code at the one-character string consisting of
a single double quote: it is not enclosed in a pair of quotes, yet it is
not returned unchanged — `value[1:-1]` maps it to the empty string. -/
theorem claim_C10_cex :
    convert_value "\"" = PyValue.str "" ∧ convert_value "\"" ≠ PyValue.str "\"" := by decide

/-- Claim C10 as amended: for a non-coercible value, a string enclosed in
a matching pair of double or single quotes loses exactly that outer pair;
a string consisting of a single quote character (where the first and last
character coincide) becomes the empty string; every other value is
returned unchanged. -/
theorem claim_C10_quotes (s : String)
    (hk : ¬(pyLower s = "none" ∨ pyLower s = "null" ∨ pyLower s = "true" ∨ pyLower s = "false"))
    (hi : pyIntParse s = Option.none) (hf : pyFloatParse s = Option.none) :
    (∀ (c : Char) (mid : List Char), (c = dquote ∨ c = squote) →
      s.toList = c :: (mid ++ [c]) → convert_value s = PyValue.str (String.mk mid)) ∧
    (∀ c : Char, (c = dquote ∨ c = squote) → s.toList = [c] →
      convert_value s = PyValue.str "") ∧
    (¬((s.toList.head? = some dquote ∧ s.toList.getLast? = some dquote) ∨
       (s.toList.head? = some squote ∧ s.toList.getLast? = some squote)) →
      convert_value s = PyValue.str s) := by
  push_neg at hk
  have hcv : convert_value s = PyValue.str (pyStripQuotes s) := by
    unfold convert_value
    simp [hk.1, hk.2.1, hk.2.2.1, hk.2.2.2, hi, hf]
  refine ⟨?_, ?_, ?_⟩
  · intro c mid hc hl
    have hhead : (c :: (mid ++ [c])).head? = some c := rfl
    have hlast : (c :: (mid ++ [c])).getLast? = some c := by
      rw [← List.cons_append]
      exact List.getLast?_concat _
    have hres : ((c :: (mid ++ [c])).drop 1).dropLast = mid := List.dropLast_concat
    rw [hcv]
    unfold pyStripQuotes
    rw [hl]
    rcases hc with rfl | rfl
    · rw [if_pos (Or.inl ⟨hhead, hlast⟩), hres]
    · rw [if_pos (Or.inr ⟨hhead, hlast⟩), hres]
  · intro c hc hl
    rw [hcv]
    unfold pyStripQuotes
    rw [hl]
    rcases hc with rfl | rfl
    · rw [if_pos (Or.inl ⟨rfl, rfl⟩)]
      rfl
    · rw [if_pos (Or.inr ⟨rfl, rfl⟩)]
      rfl
  · intro hq
    rw [hcv]
    unfold pyStripQuotes
    rw [if_neg hq]

/-- Witness for the amended claim C10 at a concrete input. -/
theorem claim_C10_quotes_witness : convert_value "\"hi\"" = PyValue.str "hi" := by
  have h := (claim_C10_quotes "\"hi\"" (by decide) (by decide) (by decide)).1
    dquote ['h', 'i'] (Or.inl rfl) (by decide)
  exact h

lemma lookup_map_overwrite (d : PyDict) (k : String) (v : PyValue)
    (h : (d.lookup k).isSome = true) :
    (d.map (fun p => if p.1 = k then (k, v) else p)).lookup k = some v := by
  induction d with
  | nil => simp [List.lookup] at h
  | cons p rest ih =>
    by_cases hp : p.1 = k
    · rw [List.map_cons, if_pos hp]
      simp [List.lookup]
    · have hkp : (k == p.1) = false := beq_eq_false_iff_ne.mpr (fun e => hp e.symm)
      have h' : (rest.lookup k).isSome = true := by
        simpa [List.lookup, hkp] using h
      rw [List.map_cons, if_neg hp]
      simp only [List.lookup, hkp]
      exact ih h'

lemma lookup_append_new (d : PyDict) (k : String) (v : PyValue)
    (h : d.lookup k = Option.none) :
    (d ++ [(k, v)]).lookup k = some v := by
  induction d with
  | nil => simp [List.lookup]
  | cons p rest ih =>
    have hkp : (k == p.1) = false := by
      by_contra hb
      have : (k == p.1) = true := by revert hb; cases k == p.1 <;> simp
      simp [List.lookup, this] at h
    have h' : rest.lookup k = Option.none := by simpa [List.lookup, hkp] using h
    simp [List.lookup, hkp]
    exact ih h'

lemma lookup_dictInsert (d : PyDict) (k : String) (v : PyValue) :
    (dictInsert d k v).lookup k = some v := by
  unfold dictInsert
  by_cases h : (d.lookup k).isSome
  · rw [if_pos h]
    exact lookup_map_overwrite d k v h
  · rw [if_neg h]
    exact lookup_append_new d k v (Option.not_isSome_iff_eq_none.mp h)

lemma keys_dictInsert (d : PyDict) (k : String) (v : PyValue) :
    (dictInsert d k v).map Prod.fst =
      if (d.lookup k).isSome then d.map Prod.fst else d.map Prod.fst ++ [k] := by
  unfold dictInsert
  by_cases h : (d.lookup k).isSome
  · rw [if_pos h, if_pos h, List.map_map]
    apply List.map_congr_left
    intro p _
    by_cases hp : p.1 = k
    · simp [hp]
    · simp [hp]
  · rw [if_neg h, if_neg h]
    simp

lemma processPairs_spec (pieces : List (List Char)) (acc : PyDict) :
    processPairs pieces acc =
      match ((pieces.map stripL).filter (fun p => !p.isEmpty)).find?
          (fun p => !p.contains '=') with
      | some p =>
        Except.error (PyErr.valueError
          ("Invalid parameter format: " ++ String.mk p ++ ". Expected key=value or JSON."))
      | Option.none =>
        Except.ok (((pieces.map stripL).filter (fun p => !p.isEmpty)).foldl
          (fun a p => dictInsert a (kvKey p) (convert_value (kvVal p))) acc) := by
  induction pieces generalizing acc with
  | nil => simp [processPairs]
  | cons pair rest ih =>
    by_cases h1 : stripL pair = []
    · have he : (stripL pair).isEmpty = true := by simp [h1]
      unfold processPairs
      rw [if_pos h1]
      simp only [List.map_cons, List.filter_cons, he, Bool.not_true, if_neg Bool.false_ne_true]
      exact ih acc
    · have he : (stripL pair).isEmpty = false := by
        cases hc : stripL pair with
        | nil => exact absurd hc h1
        | cons c l => simp
      by_cases h2 : (stripL pair).contains '='
      · unfold processPairs
        rw [if_neg h1, if_pos h2]
        rw [List.map_cons, List.filter_cons, if_pos (by simp [he]),
          List.find?_cons_of_neg _ (by simpa using h2), List.foldl_cons]
        rw [ih]
        rfl
      · have h2f : (stripL pair).contains '=' = false := by
          revert h2; cases (stripL pair).contains '=' <;> simp
        unfold processPairs
        rw [if_neg h1, if_neg h2]
        rw [List.map_cons, List.filter_cons, if_pos (by simp [he]),
          List.find?_cons_of_pos _ (by simpa using h2f)]

lemma processPairs_no_json_error (pieces : List (List Char)) (acc : PyDict) (m : String) :
    processPairs pieces acc ≠ Except.error (PyErr.jsonDecodeError m) := by
  induction pieces generalizing acc with
  | nil => simp [processPairs]
  | cons pair rest ih =>
    unfold processPairs
    by_cases h1 : stripL pair = []
    · rw [if_pos h1]
      exact ih acc
    · by_cases h2 : (stripL pair).contains '='
      · rw [if_neg h1, if_pos h2]
        exact ih _
      · rw [if_neg h1, if_neg h2]
        simp

/-- Claim C3: on every parameter string not taken by the JSON branch,
`parse_params` behaves exactly as described — split on commas, skip empty
pieces, split each piece on its first `=`, strip key and value, coerce the
value and assign it (a `ValueError` for the first non-empty piece without
an `=`); moreover dict assignment overwrites an existing key's value while
preserving the key order, and appends new keys at the end. -/
theorem claim_C3_kv (j : String → Except String PyDict) (s : String) (h0 : s ≠ "")
    (hj : ¬((stripL s.toList).head? = some lbrace ∧
            (stripL s.toList).getLast? = some rbrace)) :
    parse_params j (some s) = parseParamsKVSpec s ∧
    (∀ (d : PyDict) (k : String) (v : PyValue), (dictInsert d k v).lookup k = some v) ∧
    (∀ (d : PyDict) (k : String) (v : PyValue),
      (dictInsert d k v).map Prod.fst =
        if (d.lookup k).isSome then d.map Prod.fst else d.map Prod.fst ++ [k]) := by
  refine ⟨?_, fun d k v => lookup_dictInsert d k v, fun d k v => keys_dictInsert d k v⟩
  simp only [parse_params]
  unfold parseParamsKVSpec kvPieces
  rw [if_neg h0, if_neg hj]
  exact processPairs_spec _ []

/-- Witness for claim C3 at a concrete input (duplicate key, internal
whitespace, trailing comma). -/
theorem claim_C3_kv_witness :
    parse_params (fun _ => Except.error "unused") (some "a=1, a=2 ,b=hi,") =
      parseParamsKVSpec "a=1, a=2 ,b=hi," :=
  (claim_C3_kv (fun _ => Except.error "unused") "a=1, a=2 ,b=hi," (by decide) (by decide)).1

/-- Claim C4: a parameter string that (after stripping) starts with `{`
and ends with `}` is decoded by the JSON branch alone: the result is
whatever `json.loads` returns, a `json.JSONDecodeError` is re-raised as a
`ValueError` (never surfaced bare), and the `key=value` loop is never
consulted. -/
theorem claim_C4_json (j : String → Except String PyDict) (s : String) (h0 : s ≠ "")
    (h1 : (stripL s.toList).head? = some lbrace)
    (h2 : (stripL s.toList).getLast? = some rbrace) :
    parse_params j (some s) =
      (match j (String.mk (stripL s.toList)) with
       | Except.ok d => Except.ok d
       | Except.error e =>
         Except.error (PyErr.valueError ("Invalid JSON format: " ++ e))) ∧
    (∀ m, parse_params j (some s) ≠ Except.error (PyErr.jsonDecodeError m)) := by
  have hpp : parse_params j (some s) =
      (match j (String.mk (stripL s.toList)) with
       | Except.ok d => Except.ok d
       | Except.error e =>
         Except.error (PyErr.valueError ("Invalid JSON format: " ++ e))) := by
    simp only [parse_params]
    rw [if_neg h0, if_pos ⟨h1, h2⟩]
  refine ⟨hpp, ?_⟩
  intro m
  rw [hpp]
  rcases j (String.mk (stripL s.toList)) with e | d
  · simp
  · simp

/-- Witness for claim C4 at a concrete input: invalid JSON is surfaced as
a `ValueError` wrapping the decoder's message. -/
theorem claim_C4_json_witness :
    parse_params (fun _ => Except.error "boom") (some "\x7bx\x7d") =
      Except.error (PyErr.valueError ("Invalid JSON format: " ++ "boom")) :=
  (claim_C4_json (fun _ => Except.error "boom") "\x7bx\x7d" (by decide)
    (by decide) (by decide)).1
